import Mathlib

/-!
Verification of the tenant-scoped real-time event distribution subsystem of
the taskts repository (backend/src/server/utils/events.ts,
backend/src/server/controllers/rt.controller.ts,
backend/src/server/middleware/auth.middleware.ts, board and task
controllers).  The Node `EventEmitter` bus is embedded as a registration
list keyed by channel name; SSE sessions are identified by a numeric
session id whose written frames are tracked per session.
-/

namespace TaskTS

/-- Event types, from events.ts (`EventType = "created" | "updated" | "deleted"`). -/
inductive EventType where
  | created
  | updated
  | deleted
deriving DecidableEq, Repr

/-- Entity kinds carried by a `TenantEvent` (`entity: "board" | "task"`). -/
inductive Entity where
  | board
  | task
deriving DecidableEq, Repr

/-- `BoardResponse` as built by the board controller (scalar fields; `Date`
fields are modelled as `Nat` instants). -/
structure BoardResponse where
  id : String
  name : String
  description : Option String
  ownerId : String
  tenantId : String
  groupId : Option String
  createdAt : Nat
  updatedAt : Nat
  taskCount : Nat
deriving DecidableEq, Repr

/-- `TaskResponse` as built by the task controller. -/
structure TaskResponse where
  id : String
  title : String
  description : Option String
  status : String
  boardId : String
  ownerId : String
  assigneeId : Option String
  parentTaskId : Option String
  createdAt : Nat
  updatedAt : Nat
deriving DecidableEq, Repr

/-- The payload union of `emitBoardEvent` / `emitTaskEvent`:
`BoardResponse | {id, tenantId}` for boards and
`TaskResponse | {id, boardId, tenantId}` for tasks. -/
inductive EventData where
  | boardFull (b : BoardResponse)
  | boardDeleted (id tenantId : String)
  | taskFull (t : TaskResponse)
  | taskDeleted (id boardId tenantId : String)
deriving DecidableEq, Repr

/-- `TenantEvent` from events.ts. -/
structure TenantEvent where
  tenantId : String
  type : EventType
  entity : Entity
  data : EventData
  timestamp : Nat
deriving DecidableEq, Repr

/-- Channel name used by both emit sites and the SSE controller:
the template literal `tenant:${tenantId}`. -/
def channelOf (tenantId : String) : String := "tenant:" ++ tenantId

/-- One frame written on an SSE connection: the initial `connected`
message, a `heartbeat`, or a bus-delivered mutation event (the object
built by `eventHandler` in rt.controller.ts). -/
inductive Frame where
  | connected (tenantId : String) (timestamp : Nat)
  | heartbeat (timestamp : Nat)
  | event (entity : Entity) (type : EventType) (data : EventData) (timestamp : Nat)
deriving DecidableEq, Repr

/-- The in-process world: the bus registry (channel name × session id, in
registration order, as kept by Node's `EventEmitter`), the frames written
so far on each session's connection, and each session's heartbeat-timer
state. -/
structure World where
  reg : List (String × Nat)
  writes : Nat → List Frame
  hbActive : Nat → Bool

attribute [ext] World

/-- The listeners of one channel, in registration order (Node invokes
listeners of an event name in the order they were added). -/
def listenersOf (reg : List (String × Nat)) (ch : String) : List Nat :=
  (reg.filter (fun p => p.1 == ch)).map Prod.snd

/-- The wire object built by `eventHandler`:
`{ type: entity_type, data: event.data, timestamp: event.timestamp }`. -/
def eventFrame (e : TenantEvent) : Frame :=
  Frame.event e.entity e.type e.data e.timestamp

/-- Delivery of one event to one session: the `eventHandler` callback
writes the encoded frame on that session's connection. -/
def deliver (w : World) (sid : Nat) (e : TenantEvent) : World :=
  { w with writes := fun i => if i = sid then w.writes i ++ [eventFrame e] else w.writes i }

/-- `eventBus.emit(channel, event)`: invoke every listener of the channel,
synchronously, in registration order. -/
def emit (w : World) (ch : String) (e : TenantEvent) : World :=
  (listenersOf w.reg ch).foldl (fun acc sid => deliver acc sid e) w

/-- `eventBus.on(channel, handler)`: append the listener. -/
def busOn (w : World) (ch : String) (sid : Nat) : World :=
  { w with reg := w.reg ++ [(ch, sid)] }

/-- `eventBus.off(channel, handler)`: Node's `removeListener` scans from
the end of the listener array and removes at most one (the most recently
added) matching entry; a listener that is not registered is a no-op. -/
def busOff (w : World) (ch : String) (sid : Nat) : World :=
  { w with reg := (w.reg.reverse.erase (ch, sid)).reverse }

/-- The event object built by `emitBoardEvent` in events.ts. -/
def mkBoardEvent (tenantId : String) (type : EventType) (data : EventData)
    (now : Nat) : TenantEvent :=
  { tenantId := tenantId, type := type, entity := Entity.board, data := data,
    timestamp := now }

/-- The event object built by `emitTaskEvent` in events.ts. -/
def mkTaskEvent (tenantId : String) (type : EventType) (data : EventData)
    (now : Nat) : TenantEvent :=
  { tenantId := tenantId, type := type, entity := Entity.task, data := data,
    timestamp := now }

/-- `emitBoardEvent(tenantId, type, data)`: build the event and emit it on
the `tenant:${tenantId}` channel. -/
def emitBoardEvent (w : World) (tenantId : String) (type : EventType)
    (data : EventData) (now : Nat) : World :=
  emit w (channelOf tenantId) (mkBoardEvent tenantId type data now)

/-- `emitTaskEvent(tenantId, type, data)`: build the event and emit it on
the `tenant:${tenantId}` channel. -/
def emitTaskEvent (w : World) (tenantId : String) (type : EventType)
    (data : EventData) (now : Nat) : World :=
  emit w (channelOf tenantId) (mkTaskEvent tenantId type data now)

/-- The connection-open part of `rtUpdates`: write the initial
`connected` message, start the heartbeat interval, then subscribe the
session's `eventHandler` on `tenant:${tenantId}` — in that source order. -/
def rtOpen (w : World) (sid : Nat) (tenantId : String) (now : Nat) : World :=
  let w1 : World :=
    { w with writes := fun i => if i = sid then w.writes i ++ [Frame.connected tenantId now] else w.writes i }
  let w2 : World := { w1 with hbActive := fun i => if i = sid then true else w1.hbActive i }
  busOn w2 (channelOf tenantId) sid

/-- One firing of the 30-second heartbeat interval of a session: writes a
heartbeat frame while the interval is live, nothing once it is cleared. -/
def hbTick (w : World) (sid : Nat) (now : Nat) : World :=
  if w.hbActive sid then
    { w with writes := fun i => if i = sid then w.writes i ++ [Frame.heartbeat now] else w.writes i }
  else w

/-- The `req.on("close", ...)` handler of `rtUpdates`:
`clearInterval(heartbeatInterval)` then `eventBus.off` then `res.end()`
(which writes no frame). -/
def rtClose (w : World) (sid : Nat) (tenantId : String) : World :=
  busOff { w with hbActive := fun i => if i = sid then false else w.hbActive i }
    (channelOf tenantId) sid

/-! ### Delivery with failing subscribers

Node's `EventEmitter.emit` invokes listeners synchronously; a listener
that throws propagates its exception out of `emit`, and no later listener
is invoked in that call.  `eventHandler` in rt.controller.ts contains no
try/catch around `res.write`.  `broken` is the set of sessions whose
connection write raises. -/

/-- Listener loop of `emit` with possibly-throwing listeners: on the first
broken listener the call aborts, returning (as the exception's
accompanying state) the world as delivered so far. -/
def emitExcAux (broken : List Nat) (e : TenantEvent) :
    List Nat → World → Except World World
  | [], w => Except.ok w
  | sid :: rest, w =>
      if broken.contains sid then Except.error w
      else emitExcAux broken e rest (deliver w sid e)

/-- `eventBus.emit` when some subscriber callbacks raise. -/
def emitExc (broken : List Nat) (w : World) (ch : String) (e : TenantEvent) :
    Except World World :=
  emitExcAux broken e (listenersOf w.reg ch) w

/-- Emitting a list of events in order, aborting on the first exception. -/
def emitAllExc (broken : List Nat) : World → List TenantEvent → Except World World
  | w, [] => Except.ok w
  | w, e :: rest =>
      match emitExc broken w (channelOf e.tenantId) e with
      | Except.error w2 => Except.error w2
      | Except.ok w2 => emitAllExc broken w2 rest

/-! ### Authentication middleware and the streaming route -/

/-- The verified JWT payload attached as `req.user` (auth.types.ts
`TokenPayload`, plus the `groupId` the board controller reads from
`req.user`; the numeric `iat`/`exp` fields play no role here). -/
structure TokenPayload where
  userId : String
  tenantId : String
  roleId : String
  roleName : String
  groupId : Option String
deriving DecidableEq, Repr

/-- The parts of an incoming request that credential extraction could
look at: the `Authorization` header and the `?token=` query parameter. -/
structure RtRequest where
  authorization : Option String
  queryToken : Option String
deriving DecidableEq, Repr

/-- The 401 rejection codes of auth.middleware.ts. -/
inductive AuthError where
  | unauthorized
  | invalidTokenFormat
  | invalidToken
deriving DecidableEq, Repr

/-- JS `String.prototype.startsWith`: the receiver's character sequence
begins with the argument's. -/
def jsStartsWith (s pre : String) : Bool :=
  pre.data.isPrefixOf s.data

/-- JS `String.prototype.slice(n)`: the characters from index `n` on. -/
def jsSlice (s : String) (n : Nat) : String :=
  String.mk (s.data.drop n)

/-- `authMiddleware` from auth.middleware.ts: require the `Authorization`
header, require the `Bearer ` prefix (`authHeader.startsWith("Bearer ")`),
verify the token after the 7-character prefix (`authHeader.slice(7)`);
attach the payload on success.  (`verifyAccessToken` is the opaque
credential collaborator, passed as a function.) -/
def authMiddleware (verify : String → Option TokenPayload) (r : RtRequest) :
    Except AuthError TokenPayload :=
  match r.authorization with
  | none => Except.error AuthError.unauthorized
  | some h =>
      if jsStartsWith h "Bearer " then
        match verify (jsSlice h 7) with
        | none => Except.error AuthError.invalidToken
        | some p => Except.ok p
      else Except.error AuthError.invalidTokenFormat

/-- `tenantMiddleware`: the tenant of the authenticated payload must
exist (`tenants tid = some active`) and be active. -/
def tenantMiddlewareOk (tenants : String → Option Bool) (tid : String) : Bool :=
  match tenants tid with
  | none => false
  | some active => active

/-- The `GET /events` route chain of rt.routes.ts:
`authMiddleware` then `tenantMiddleware` then `rtUpdates`.  A rejection
in either middleware leaves the world (bus registry included)
untouched; only on success does the session open and subscribe. -/
def rtRoute (verify : String → Option TokenPayload)
    (tenants : String → Option Bool) (r : RtRequest) (w : World)
    (sid : Nat) (now : Nat) : World :=
  match authMiddleware verify r with
  | Except.error _ => w
  | Except.ok p =>
      if tenantMiddlewareOk tenants p.tenantId then rtOpen w sid p.tenantId now
      else w

/-! ### Resource store and the mutation handlers

The board and task controllers (src/unnamed/part_017 and part_018) run
against a Prisma store; the store is embedded as record lists and each
Prisma call as the corresponding query on them. -/

/-- A persisted board row. -/
structure BoardRec where
  id : String
  name : String
  description : Option String
  tenantId : String
  ownerId : String
  groupId : Option String
  createdAt : Nat
  updatedAt : Nat
deriving DecidableEq, Repr

/-- A persisted task row. -/
structure TaskRec where
  id : String
  title : String
  description : Option String
  status : String
  boardId : String
  ownerId : String
  assigneeId : Option String
  parentTaskId : Option String
  createdAt : Nat
  updatedAt : Nat
deriving DecidableEq, Repr

/-- A persisted user row (only the fields the task controller queries). -/
structure UserRec where
  id : String
  tenantId : String
deriving DecidableEq, Repr

/-- The Prisma-backed resource store. -/
structure Store where
  boards : List BoardRec
  tasks : List TaskRec
  users : List UserRec
deriving DecidableEq, Repr

/-- The errors thrown by the handlers (error.middleware.ts helpers). -/
inductive HttpError where
  | notFound (what : String)
  | forbidden (msg : String)
deriving DecidableEq, Repr

/-- `prisma.board.findFirst({ where: { id, tenantId } })`. -/
def findBoard (st : Store) (id tenantId : String) : Option BoardRec :=
  st.boards.find? (fun b => b.id == id && b.tenantId == tenantId)

/-- `prisma.task.findFirst({ where: { id, boardId } })`. -/
def findTask (st : Store) (id boardId : String) : Option TaskRec :=
  st.tasks.find? (fun t => t.id == id && t.boardId == boardId)

/-- Number of tasks on a board (`_count: { select: { tasks: true } }`). -/
def taskCountOf (st : Store) (boardId : String) : Nat :=
  (st.tasks.filter (fun t => t.boardId == boardId)).length

/-- The `BoardResponse` a handler builds from a board row and its task
count. -/
def boardResponseOf (b : BoardRec) (taskCount : Nat) : BoardResponse :=
  { id := b.id, name := b.name, description := b.description,
    ownerId := b.ownerId, tenantId := b.tenantId, groupId := b.groupId,
    createdAt := b.createdAt, updatedAt := b.updatedAt, taskCount := taskCount }

/-- The `TaskResponse` a handler builds from a task row. -/
def taskResponseOf (t : TaskRec) : TaskResponse :=
  { id := t.id, title := t.title, description := t.description,
    status := t.status, boardId := t.boardId, ownerId := t.ownerId,
    assigneeId := t.assigneeId, parentTaskId := t.parentTaskId,
    createdAt := t.createdAt, updatedAt := t.updatedAt }

/-- `CreateBoardBody`. -/
structure CreateBoardBody where
  name : String
  description : Option String
  groupId : Option String
deriving DecidableEq, Repr

/-- `UpdateBoardBody` (absent field = no change). -/
structure UpdateBoardBody where
  name : Option String
  description : Option String
deriving DecidableEq, Repr

/-- `CreateTaskBody`. -/
structure CreateTaskBody where
  title : String
  description : Option String
  status : Option String
  assigneeId : Option String
  parentTaskId : Option String
deriving DecidableEq, Repr

/-- `UpdateTaskBody`; for `assigneeId` and `parentTaskId` the outer
`Option` is presence in the body (undefined = no change) and the inner
one is nullability. -/
structure UpdateTaskBody where
  title : Option String
  description : Option String
  status : Option String
  assigneeId : Option (Option String)
  parentTaskId : Option (Option String)
deriving DecidableEq, Repr

/-- `createBoard` from the board controller: persist the board (owner and
tenant from `req.user`; group from the body only for admins), then emit
`board created`, then answer 201.  Returns the new store, the emissions,
and the response body. -/
def createBoard (st : Store) (user : TokenPayload) (body : CreateBoardBody)
    (newId : String) (now : Nat) :
    Store × List TenantEvent × BoardResponse :=
  let board : BoardRec :=
    { id := newId, name := body.name, description := body.description,
      tenantId := user.tenantId, ownerId := user.userId,
      groupId := if user.roleName = "admin" then body.groupId else user.groupId,
      createdAt := now, updatedAt := now }
  let st2 : Store := { st with boards := st.boards ++ [board] }
  let response := boardResponseOf board 0
  (st2, [mkBoardEvent user.tenantId EventType.created (EventData.boardFull response) now],
   response)

/-- `updateBoard`: find the board in the caller's tenant, require owner
or admin, apply the partial update, emit `board updated`. -/
def updateBoard (st : Store) (user : TokenPayload) (id : String)
    (body : UpdateBoardBody) (now : Nat) :
    Except HttpError (Store × List TenantEvent × BoardResponse) :=
  match findBoard st id user.tenantId with
  | none => Except.error (HttpError.notFound "Board")
  | some b0 =>
      if b0.ownerId ≠ user.userId ∧ user.roleName ≠ "admin" then
        Except.error (HttpError.forbidden "You can only update boards you own")
      else
        let b : BoardRec :=
          { b0 with
            name := body.name.getD b0.name,
            description := match body.description with
              | none => b0.description
              | some d => some d,
            updatedAt := now }
        let st2 : Store :=
          { st with boards := st.boards.map (fun x => if x.id == id then b else x) }
        let resp := boardResponseOf b (taskCountOf st id)
        Except.ok (st2,
          [mkBoardEvent user.tenantId EventType.updated (EventData.boardFull resp) now],
          resp)

/-- The store after `prisma.board.delete`.  Modelled from the spec: the
Prisma schema (not under src/) cascade-deletes the board's tasks; the
controller's own doc comment says "Also deletes all tasks within the
board (cascade)". -/
def cascadeDeleteBoard (st : Store) (id : String) : Store :=
  { st with boards := st.boards.filter (fun b => b.id != id),
            tasks := st.tasks.filter (fun t => t.boardId != id) }

/-- `deleteBoard`: find the board in the caller's tenant, require owner
or admin, delete it (tasks cascade), emit exactly one
`board deleted` event with payload `{ id, tenantId }`. -/
def deleteBoard (st : Store) (user : TokenPayload) (id : String) (now : Nat) :
    Except HttpError (Store × List TenantEvent × String) :=
  match findBoard st id user.tenantId with
  | none => Except.error (HttpError.notFound "Board")
  | some b =>
      if b.ownerId ≠ user.userId ∧ user.roleName ≠ "admin" then
        Except.error (HttpError.forbidden "You can only delete boards you own")
      else
        Except.ok (cascadeDeleteBoard st id,
          [mkBoardEvent user.tenantId EventType.deleted
            (EventData.boardDeleted id user.tenantId) now],
          "Board deleted successfully")

/-- `createTask`: validate board access and the optional assignee and
parent task, persist the task, emit `task created`. -/
def createTask (st : Store) (user : TokenPayload) (boardId : String)
    (body : CreateTaskBody) (newId : String) (now : Nat) :
    Except HttpError (Store × List TenantEvent × TaskResponse) :=
  match findBoard st boardId user.tenantId with
  | none => Except.error (HttpError.notFound "Board")
  | some _ =>
      match body.assigneeId with
      | some aid =>
          if (st.users.find? (fun u => u.id == aid && u.tenantId == user.tenantId)).isNone then
            Except.error (HttpError.notFound "Assignee")
          else createTaskRest st user boardId body newId now
      | none => createTaskRest st user boardId body newId now
where
  /-- The parent-task validation and persistence tail of `createTask`. -/
  createTaskRest (st : Store) (user : TokenPayload) (boardId : String)
      (body : CreateTaskBody) (newId : String) (now : Nat) :
      Except HttpError (Store × List TenantEvent × TaskResponse) :=
    match body.parentTaskId with
    | some pid =>
        if (st.tasks.find? (fun t => t.id == pid && t.boardId == boardId)).isNone then
          Except.error (HttpError.notFound "Parent task")
        else createTaskPersist st user boardId body newId now
    | none => createTaskPersist st user boardId body newId now
  /-- The persistence and emission tail of `createTask`. -/
  createTaskPersist (st : Store) (user : TokenPayload) (boardId : String)
      (body : CreateTaskBody) (newId : String) (now : Nat) :
      Except HttpError (Store × List TenantEvent × TaskResponse) :=
    let task : TaskRec :=
      { id := newId, title := body.title, description := body.description,
        status := body.status.getD "TODO", boardId := boardId,
        ownerId := user.userId, assigneeId := body.assigneeId,
        parentTaskId := body.parentTaskId, createdAt := now, updatedAt := now }
    let st2 : Store := { st with tasks := st.tasks ++ [task] }
    let resp := taskResponseOf task
    Except.ok (st2,
      [mkTaskEvent user.tenantId EventType.created (EventData.taskFull resp) now],
      resp)

/-- `updateTask`: validate board access, find the task, require owner,
assignee or admin, validate a non-null new assignee, forbid a task being
its own parent, apply the partial update, emit `task updated`. -/
def updateTask (st : Store) (user : TokenPayload) (boardId id : String)
    (body : UpdateTaskBody) (now : Nat) :
    Except HttpError (Store × List TenantEvent × TaskResponse) :=
  match findBoard st boardId user.tenantId with
  | none => Except.error (HttpError.notFound "Board")
  | some _ =>
      match findTask st id boardId with
      | none => Except.error (HttpError.notFound "Task")
      | some t0 =>
          if ¬(t0.ownerId = user.userId ∨ t0.assigneeId = some user.userId ∨
               user.roleName = "admin") then
            Except.error
              (HttpError.forbidden "You can only update tasks you own or are assigned to")
          else
            match body.assigneeId with
            | some (some aid) =>
                if (st.users.find? (fun u => u.id == aid && u.tenantId == user.tenantId)).isNone then
                  Except.error (HttpError.notFound "Assignee")
                else updateTaskRest st user id body t0 now
            | _ => updateTaskRest st user id body t0 now
where
  /-- The circular-parent check and persistence tail of `updateTask`. -/
  updateTaskRest (st : Store) (user : TokenPayload) (id : String)
      (body : UpdateTaskBody) (t0 : TaskRec) (now : Nat) :
      Except HttpError (Store × List TenantEvent × TaskResponse) :=
    if body.parentTaskId = some (some id) then
      Except.error (HttpError.forbidden "A task cannot be its own parent")
    else
      let t : TaskRec :=
        { t0 with
          title := body.title.getD t0.title,
          description := match body.description with
            | none => t0.description
            | some d => some d,
          status := body.status.getD t0.status,
          assigneeId := body.assigneeId.getD t0.assigneeId,
          parentTaskId := body.parentTaskId.getD t0.parentTaskId,
          updatedAt := now }
      let st2 : Store :=
        { st with tasks := st.tasks.map (fun x => if x.id == id then t else x) }
      let resp := taskResponseOf t
      Except.ok (st2,
        [mkTaskEvent user.tenantId EventType.updated (EventData.taskFull resp) now],
        resp)

/-- `deleteTask`: validate board access, find the task, require owner or
admin, delete it (subtasks cascade per the schema), emit `task deleted`
with payload `{ id, boardId, tenantId }`. -/
def deleteTask (st : Store) (user : TokenPayload) (boardId id : String)
    (now : Nat) :
    Except HttpError (Store × List TenantEvent × String) :=
  match findBoard st boardId user.tenantId with
  | none => Except.error (HttpError.notFound "Board")
  | some _ =>
      match findTask st id boardId with
      | none => Except.error (HttpError.notFound "Task")
      | some t =>
          if t.ownerId ≠ user.userId ∧ user.roleName ≠ "admin" then
            Except.error (HttpError.forbidden "You can only delete tasks you own")
          else
            let st2 : Store :=
              { st with tasks :=
                  st.tasks.filter (fun x => x.id != id && x.parentTaskId != some id) }
            Except.ok (st2,
              [mkTaskEvent user.tenantId EventType.deleted
                (EventData.taskDeleted id boardId user.tenantId) now],
              "Task deleted successfully")

/-- The emissions of a fallible handler (none when it threw before the
write). -/
def emittedOf {α : Type} (r : Except HttpError (Store × List TenantEvent × α)) :
    List TenantEvent :=
  match r with
  | Except.error _ => []
  | Except.ok (_, evs, _) => evs

/-- The whole `createBoard` request once event delivery may raise: the
Prisma write has committed, then `emitBoardEvent` runs with no
try/catch in the handler — an exception thrown by a subscriber callback
inside the synchronous emit propagates out of the handler before
`res.status(201).json(...)` runs.  The `Store` component is the
committed store; the `Except` is the response (`ok` = the 201 success
body was sent). -/
def createBoardRequest (broken : List Nat) (w : World) (st : Store)
    (user : TokenPayload) (body : CreateBoardBody) (newId : String) (now : Nat) :
    Store × Except World (World × BoardResponse) :=
  let r := createBoard st user body newId now
  match emitAllExc broken w r.2.1 with
  | Except.error w2 => (r.1, Except.error w2)
  | Except.ok w2 => (r.1, Except.ok (w2, r.2.2))

/-! ### The wire format

`rtUpdates` writes each frame as
`res.write("data: " + JSON.stringify(obj) + "\n\n")`.  The JSON objects
are embedded as ordered field lists (one scalar level nested under
`data`), mirroring the object literals of the source. -/

/-- A scalar JSON value of a frame field. -/
inductive JLit where
  | str (s : String)
  | num (n : Nat)
  | jnull
deriving DecidableEq, Repr

/-- A top-level frame field: a scalar or one nested object of scalars
(the `data` payload). -/
inductive JField where
  | lit (l : JLit)
  | obj (fields : List (String × JLit))
deriving DecidableEq, Repr

/-- A frame's JSON object, as an ordered field list. -/
abbrev JObj := List (String × JField)

/-- `string | null` serialization. -/
def optStr : Option String → JLit
  | none => JLit.jnull
  | some s => JLit.str s

/-- `JSON.stringify` of a `BoardResponse` payload. -/
def boardResponseJson (b : BoardResponse) : List (String × JLit) :=
  [("id", JLit.str b.id), ("name", JLit.str b.name),
   ("description", optStr b.description), ("ownerId", JLit.str b.ownerId),
   ("tenantId", JLit.str b.tenantId), ("groupId", optStr b.groupId),
   ("createdAt", JLit.num b.createdAt), ("updatedAt", JLit.num b.updatedAt),
   ("taskCount", JLit.num b.taskCount)]

/-- `JSON.stringify` of a `TaskResponse` payload. -/
def taskResponseJson (t : TaskResponse) : List (String × JLit) :=
  [("id", JLit.str t.id), ("title", JLit.str t.title),
   ("description", optStr t.description), ("status", JLit.str t.status),
   ("boardId", JLit.str t.boardId), ("ownerId", JLit.str t.ownerId),
   ("assigneeId", optStr t.assigneeId), ("parentTaskId", optStr t.parentTaskId),
   ("createdAt", JLit.num t.createdAt), ("updatedAt", JLit.num t.updatedAt)]

/-- Serialization of the `data` payload of a mutation event. -/
def dataJson : EventData → List (String × JLit)
  | EventData.boardFull b => boardResponseJson b
  | EventData.boardDeleted i t => [("id", JLit.str i), ("tenantId", JLit.str t)]
  | EventData.taskFull t => taskResponseJson t
  | EventData.taskDeleted i b t =>
      [("id", JLit.str i), ("boardId", JLit.str b), ("tenantId", JLit.str t)]

/-- The `entity` half of the wire `type` string. -/
def entityName : Entity → String
  | Entity.board => "board"
  | Entity.task => "task"

/-- The `type` half of the wire `type` string. -/
def typeName : EventType → String
  | EventType.created => "created"
  | EventType.updated => "updated"
  | EventType.deleted => "deleted"

/-- The JSON object written for each frame, field for field as in
rt.controller.ts: the `connected` message is
`{ type: "connected", tenantId, timestamp }`, the heartbeat is
`{ type: "heartbeat", timestamp }`, and `eventHandler` writes
`{ type: entity_type, data: event.data, timestamp: event.timestamp }`. -/
def frameJson : Frame → JObj
  | Frame.connected tid ts =>
      [("type", JField.lit (JLit.str "connected")),
       ("tenantId", JField.lit (JLit.str tid)),
       ("timestamp", JField.lit (JLit.num ts))]
  | Frame.heartbeat ts =>
      [("type", JField.lit (JLit.str "heartbeat")),
       ("timestamp", JField.lit (JLit.num ts))]
  | Frame.event ent ty d ts =>
      [("type", JField.lit (JLit.str (entityName ent ++ "_" ++ typeName ty))),
       ("data", JField.obj (dataJson d)),
       ("timestamp", JField.lit (JLit.num ts))]

/-- Rendering of a scalar JSON value. -/
def renderLit : JLit → String
  | JLit.str s => "\x22" ++ s ++ "\x22"
  | JLit.num n => toString n
  | JLit.jnull => "null"

/-- Rendering of one `key: value` pair of a nested scalar object. -/
def renderLitPair (p : String × JLit) : String :=
  "\x22" ++ p.1 ++ "\x22:" ++ renderLit p.2

/-- Rendering of a nested scalar object. -/
def renderInner (fields : List (String × JLit)) : String :=
  "\x7b" ++ String.intercalate "," (fields.map renderLitPair) ++ "\x7d"

/-- Rendering of a top-level field value. -/
def renderField : JField → String
  | JField.lit l => renderLit l
  | JField.obj fs => renderInner fs

/-- Rendering of a frame's JSON object. -/
def renderObj (o : JObj) : String :=
  "\x7b" ++
    String.intercalate ","
      (o.map (fun p => "\x22" ++ p.1 ++ "\x22:" ++ renderField p.2)) ++
    "\x7d"

/-- One SSE block as written by `rtUpdates`:
`"data: " + JSON.stringify(obj) + "\n\n"`. -/
def sseBlock (f : Frame) : String :=
  "data: " ++ renderObj (frameJson f) ++ "\x0a\x0a"

/-! ### The step machine over worlds

All bus operations run on Node's single logical thread; a trace of the
subsystem is a sequence of these atomic steps. -/

/-- One atomic step of the realtime subsystem. -/
inductive Step where
  | pubBoard (tenantId : String) (type : EventType) (data : EventData) (now : Nat)
  | pubTask (tenantId : String) (type : EventType) (data : EventData) (now : Nat)
  | hb (sid : Nat) (now : Nat)
  | connect (sid : Nat) (tenantId : String) (now : Nat)
  | disconnect (sid : Nat) (tenantId : String)
deriving Repr

/-- Effect of one step. -/
def stepWorld (w : World) : Step → World
  | Step.pubBoard t ty d now => emitBoardEvent w t ty d now
  | Step.pubTask t ty d now => emitTaskEvent w t ty d now
  | Step.hb sid now => hbTick w sid now
  | Step.connect sid t now => rtOpen w sid t now
  | Step.disconnect sid t => rtClose w sid t

/-- Effect of a trace of steps. -/
def runSteps (w : World) (ss : List Step) : World :=
  ss.foldl stepWorld w

/-- Publishing a sequence of events on one channel. -/
def publishSeq (w : World) (ch : String) (es : List TenantEvent) : World :=
  es.foldl (fun acc e => emit acc ch e) w

/-! ### Bus lemmas -/

theorem deliver_reg (w : World) (sid : Nat) (e : TenantEvent) :
    (deliver w sid e).reg = w.reg := rfl

theorem foldl_deliver_reg (e : TenantEvent) (L : List Nat) (w : World) :
    (L.foldl (fun acc sid => deliver acc sid e) w).reg = w.reg := by
  induction L generalizing w with
  | nil => rfl
  | cons s rest ih => simpa using ih (deliver w s e)

theorem emit_reg (w : World) (ch : String) (e : TenantEvent) :
    (emit w ch e).reg = w.reg := by
  unfold emit
  exact foldl_deliver_reg e _ w

theorem deliver_hb (w : World) (sid : Nat) (e : TenantEvent) :
    (deliver w sid e).hbActive = w.hbActive := rfl

theorem foldl_deliver_writes (e : TenantEvent) (L : List Nat) (w : World) (i : Nat) :
    (L.foldl (fun acc sid => deliver acc sid e) w).writes i =
      w.writes i ++ List.replicate (L.count i) (eventFrame e) := by
  induction L generalizing w with
  | nil => simp
  | cons s rest ih =>
      by_cases hsi : s = i
      · subst hsi
        have hc : (s :: rest).count s = rest.count s + 1 := by
          simp [List.count_cons]
        rw [List.foldl_cons, ih (deliver w s e), hc]
        have hw : (deliver w s e).writes s = w.writes s ++ [eventFrame e] := by
          simp [deliver]
        rw [hw, List.append_assoc]
        congr 1
      · have hc : (s :: rest).count i = rest.count i := by
          simp [List.count_cons, Ne.symm hsi]
        rw [List.foldl_cons, ih (deliver w s e), hc]
        have hw : (deliver w s e).writes i = w.writes i := by
          simp [deliver, Ne.symm hsi]
        rw [hw]

theorem emit_writes (w : World) (ch : String) (e : TenantEvent) (i : Nat) :
    (emit w ch e).writes i =
      w.writes i ++ List.replicate ((listenersOf w.reg ch).count i) (eventFrame e) := by
  unfold emit
  exact foldl_deliver_writes e _ w i

/-- The `tenant:` prefix map is injective, so distinct tenants have
distinct bus channels. -/
theorem channelOf_inj {a b : String} (h : channelOf a = channelOf b) : a = b := by
  unfold channelOf at h
  have hd := congrArg String.data h
  simp [String.data_append] at hd
  cases a with
  | mk da =>
      cases b with
      | mk db => exact congrArg String.mk hd

/-- Occurrences of a session in a channel's listener list correspond to
occurrences of the registration pair in the registry. -/
theorem count_listenersOf (l : List (String × Nat)) (ch : String) (s : Nat) :
    (listenersOf l ch).count s = l.count (ch, s) := by
  induction l with
  | nil => rfl
  | cons p rest ih =>
      by_cases hch : p.1 = ch
      · by_cases hs : p.2 = s
        · have hp : p = (ch, s) := by
            cases p
            simp_all
          subst hp
          simp [listenersOf, List.count_cons] at *
          simp [ih]
        · have hp : p ≠ (ch, s) := by
            intro hcontra
            apply hs
            rw [hcontra]
          simp [listenersOf, List.filter_cons, hch, List.count_cons, hs, hp] at *
          simpa [listenersOf] using ih
      · have hp : p ≠ (ch, s) := by
          intro hcontra
          apply hch
          rw [hcontra]
        simp [listenersOf, List.filter_cons, hch, List.count_cons, hp] at *
        simpa [listenersOf] using ih

theorem listenersOf_reverse (l : List (String × Nat)) (ch : String) :
    listenersOf l.reverse ch = (listenersOf l ch).reverse := by
  simp [listenersOf, List.filter_reverse, List.map_reverse]

theorem listenersOf_erase (l : List (String × Nat)) (ch : String) (s : Nat) :
    listenersOf (l.erase (ch, s)) ch = (listenersOf l ch).erase s := by
  induction l with
  | nil => rfl
  | cons p rest ih =>
      by_cases hp : p = (ch, s)
      · subst hp
        simp [List.erase_cons, listenersOf, List.filter_cons]
      · rw [List.erase_cons_tail]
        · by_cases hch : p.1 = ch
          · have hs : p.2 ≠ s := by
              intro hcontra
              apply hp
              cases p
              simp_all
            simp [listenersOf, List.filter_cons, hch] at *
            rw [List.erase_cons_tail]
            · simpa [listenersOf] using ih
            · simp [hs]
          · simp [listenersOf, List.filter_cons, hch] at *
            simpa [listenersOf] using ih
        · simp [hp]

/-- A session absent from a channel's listener list is untouched by an
emit on that channel. -/
theorem emit_writes_of_not_listener (w : World) (ch : String) (e : TenantEvent)
    (i : Nat) (h : (listenersOf w.reg ch).count i = 0) :
    (emit w ch e).writes i = w.writes i := by
  rw [emit_writes, h]
  simp

/-! ### C1: tenant isolation -/

/-- C1.  Tenant isolation of delivery: a session whose every bus
registration is on tenant T1's channel receives nothing from a publish
of a board or task event for a different tenant T2 — `emitBoardEvent`
and `emitTaskEvent` with tenantId T2 leave its connection's write log
unchanged. -/
theorem tenant_isolation (w : World) (sid : Nat) (T1 T2 : String)
    (honly : ∀ p ∈ w.reg, p.2 = sid → p.1 = channelOf T1)
    (hne : T1 ≠ T2) (ty ty2 : EventType) (d d2 : EventData) (now : Nat) :
    (emitBoardEvent w T2 ty d now).writes sid = w.writes sid
    ∧ (emitTaskEvent w T2 ty2 d2 now).writes sid = w.writes sid := by
  have hcount : (listenersOf w.reg (channelOf T2)).count sid = 0 := by
    rw [count_listenersOf, List.count_eq_zero]
    intro hmem
    have hch : channelOf T2 = channelOf T1 := honly _ hmem rfl
    exact hne (channelOf_inj hch).symm
  exact ⟨emit_writes_of_not_listener w _ _ sid hcount,
         emit_writes_of_not_listener w _ _ sid hcount⟩

/-- A one-subscriber world: session 5 registered only on tenant `t1`'s
channel. -/
def wIso : World :=
  { reg := [(channelOf "t1", 5)], writes := fun _ => [], hbActive := fun _ => false }

/-- Witness for C1 at session 5 on tenant `t1` against a publish for
tenant `t2`. -/
theorem tenant_isolation_witness :
    (emitBoardEvent wIso "t2" EventType.created
        (EventData.boardDeleted "b1" "t2") 3).writes 5 = wIso.writes 5
    ∧ (emitTaskEvent wIso "t2" EventType.deleted
        (EventData.taskDeleted "k1" "b1" "t2") 3).writes 5 = wIso.writes 5 :=
  tenant_isolation wIso 5 "t1" "t2"
    (by
      intro p hp _
      have hp2 : p = (channelOf "t1", 5) := by simpa [wIso] using hp
      rw [hp2])
    (by decide)
    EventType.created EventType.deleted
    (EventData.boardDeleted "b1" "t2") (EventData.taskDeleted "k1" "b1" "t2") 3

/-! ### C2: per-channel order preservation -/

/-- C2.  Per-channel order preservation: a subscriber registered (once)
on a channel throughout a sequence of publishes on that channel observes
exactly the published events, as frames, appended to its connection in
publish order — nothing reordered, skipped, or coalesced; since the
appended suffix is the same for every such subscriber, all of them
observe the same relative order. -/
theorem order_preservation (w : World) (ch : String) (sid : Nat)
    (es : List TenantEvent)
    (h : (listenersOf w.reg ch).count sid = 1) :
    (publishSeq w ch es).writes sid = w.writes sid ++ es.map eventFrame := by
  induction es generalizing w with
  | nil => simp [publishSeq]
  | cons e rest ih =>
      have h2 : (listenersOf (emit w ch e).reg ch).count sid = 1 := by
        rw [emit_reg]
        exact h
      have hstep : publishSeq w ch (e :: rest) = publishSeq (emit w ch e) ch rest := rfl
      rw [hstep, ih (emit w ch e) h2, emit_writes, h]
      simp

/-- The `IN_PROGRESS` update of the spec's rapid-update scenario. -/
def evInProgress : TenantEvent :=
  mkTaskEvent "t1" EventType.updated
    (EventData.taskFull
      { id := "k1", title := "t", description := none,
        status := "IN_PROGRESS", boardId := "b1", ownerId := "u1",
        assigneeId := none, parentTaskId := none, createdAt := 0, updatedAt := 1 })
    1

/-- The `DONE` update of the spec's rapid-update scenario. -/
def evDone : TenantEvent :=
  mkTaskEvent "t1" EventType.updated
    (EventData.taskFull
      { id := "k1", title := "t", description := none,
        status := "DONE", boardId := "b1", ownerId := "u1",
        assigneeId := none, parentTaskId := none, createdAt := 0, updatedAt := 2 })
    2

/-- Witness for C2: the two rapid task updates of the spec scenario
(`IN_PROGRESS` then `DONE`), published on `tenant:t1`, are observed by
session 5 in exactly that order. -/
theorem order_preservation_witness :
    (publishSeq wIso (channelOf "t1") [evInProgress, evDone]).writes 5
      = wIso.writes 5 ++ [eventFrame evInProgress, eventFrame evDone] :=
  order_preservation wIso (channelOf "t1") 5 [evInProgress, evDone] (by decide)

/-! ### C3: delivery failure is not isolated (corrected) -/

/-- A two-subscriber world on tenant t1's channel: sessions 1 and 2 in
registration order. -/
def wTwo : World :=
  { reg := [(channelOf "t1", 1), (channelOf "t1", 2)],
    writes := fun _ => [], hbActive := fun _ => false }

/-- A board `deleted` event for tenant t1. -/
def evDel : TenantEvent :=
  mkBoardEvent "t1" EventType.deleted (EventData.boardDeleted "b1" "t1") 5

/-- Counterexample to C3: with sessions 1 and 2 both registered on
`tenant:t1` and session 1's connection write raising, the publish call
aborts with the exception; session 2 never receives the event in that
publish call, and the failing session 1 is still registered on the
channel afterwards — it is not removed. -/
theorem failing_subscriber_cex :
    emitExc [1] wTwo (channelOf "t1") evDel = Except.error wTwo
    ∧ wTwo.writes 2 = []
    ∧ (channelOf "t1", 1) ∈ wTwo.reg := by
  refine ⟨rfl, rfl, ?_⟩
  simp [wTwo]

/-- The state of `emit` after delivering to the listeners before the
failing one. -/
theorem emitExcAux_append (broken : List Nat) (e : TenantEvent) (l1 : List Nat)
    (b : Nat) (l2 : List Nat) (w : World)
    (hb : broken.contains b = true)
    (hok : ∀ x ∈ l1, broken.contains x = false) :
    emitExcAux broken e (l1 ++ b :: l2) w
      = Except.error (l1.foldl (fun acc sid => deliver acc sid e) w) := by
  induction l1 generalizing w with
  | nil =>
      have hmem : b ∈ broken := by simpa using hb
      simp [emitExcAux, hmem]
  | cons x rest ih =>
      have hx : broken.contains x = false := hok x (by simp)
      simp only [List.cons_append, emitExcAux, hx, Bool.false_eq_true, if_false,
        List.foldl_cons]
      exact ih (deliver w x e) (fun y hy => hok y (by simp [hy]))

/-- C3 as amended.  `eventHandler` has no try/catch, so when the callback
of a subscriber raises during `eventBus.emit`, the emit call aborts with
the exception: the subscribers registered before the failing one have
already received the event, the ones registered after it do not receive
it in that publish call, and the failing subscriber is not removed from
the channel — the registry is unchanged (removal happens only in the
connection's own close handler). -/
theorem emit_aborts_at_failing_subscriber (broken : List Nat) (w : World)
    (ch : String) (e : TenantEvent) (l1 l2 : List Nat) (b : Nat)
    (hsplit : listenersOf w.reg ch = l1 ++ b :: l2)
    (hb : broken.contains b = true)
    (hok : ∀ x ∈ l1, broken.contains x = false) :
    emitExc broken w ch e
      = Except.error (l1.foldl (fun acc sid => deliver acc sid e) w)
    ∧ (l1.foldl (fun acc sid => deliver acc sid e) w).reg = w.reg
    ∧ ∀ j ∈ l2, j ∉ l1 →
        (l1.foldl (fun acc sid => deliver acc sid e) w).writes j = w.writes j := by
  refine ⟨?_, foldl_deliver_reg e l1 w, ?_⟩
  · unfold emitExc
    rw [hsplit]
    exact emitExcAux_append broken e l1 b l2 w hb hok
  · intro j _ hj
    rw [foldl_deliver_writes]
    have : l1.count j = 0 := List.count_eq_zero.mpr hj
    rw [this]
    simp

/-- Witness for the amended C3: session 2's write raises, session 1
(registered before it) still gets the event, the registry is unchanged. -/
theorem emit_aborts_at_failing_subscriber_witness :
    emitExc [2] wTwo (channelOf "t1") evDel
      = Except.error ([1].foldl (fun acc sid => deliver acc sid evDel) wTwo)
    ∧ ([1].foldl (fun acc sid => deliver acc sid evDel) wTwo).reg = wTwo.reg
    ∧ ∀ j ∈ ([] : List Nat), j ∉ [1] →
        ([1].foldl (fun acc sid => deliver acc sid evDel) wTwo).writes j = wTwo.writes j :=
  emit_aborts_at_failing_subscriber [2] wTwo (channelOf "t1") evDel [1] [] 2
    (by decide) rfl
    (by
      intro x hx
      simp at hx
      subst hx
      rfl)

/-! ### C4: publish failure propagates to the mutating request (corrected) -/

/-- The empty store. -/
def stEmpty : Store := { boards := [], tasks := [], users := [] }

/-- An admin of tenant t1. -/
def userAdmin : TokenPayload :=
  { userId := "u1", tenantId := "t1", roleId := "r1", roleName := "admin",
    groupId := none }

/-- A one-subscriber world: session 1 registered on tenant t1's channel. -/
def wOne : World :=
  { reg := [(channelOf "t1", 1)], writes := fun _ => [], hbActive := fun _ => false }

/-- Counterexample to C4: with session 1's connection write raising, the
`createBoard` request persists the board (the store grows by one board)
but the publish exception propagates out of the handler, so the 201
success response is never produced — the mutation's HTTP response
fails. -/
theorem publish_failure_fails_mutation_cex :
    (createBoardRequest [1] wOne stEmpty userAdmin
        { name := "B", description := none, groupId := none } "b1" 7).2
      = Except.error wOne
    ∧ (createBoardRequest [1] wOne stEmpty userAdmin
        { name := "B", description := none, groupId := none } "b1" 7).1.boards.length = 1 :=
  ⟨rfl, rfl⟩

/-- C4 as amended.  `createBoard` calls `emitBoardEvent` after the
persistence write with no try/catch before `res.status(201)`: when event
publication raises (a subscriber callback throwing inside the
synchronous emit), the exception propagates and the success response is
not returned, while the already-committed write is preserved — the store
still gains the board. -/
theorem publish_failure_propagates (broken : List Nat) (w w2 : World) (st : Store)
    (user : TokenPayload) (body : CreateBoardBody) (newId : String) (now : Nat)
    (herr : emitAllExc broken w (createBoard st user body newId now).2.1
              = Except.error w2) :
    createBoardRequest broken w st user body newId now
      = ((createBoard st user body newId now).1, Except.error w2)
    ∧ (createBoardRequest broken w st user body newId now).1.boards.length
        = st.boards.length + 1 := by
  constructor
  · simp only [createBoardRequest]
    rw [herr]
  · simp only [createBoardRequest]
    rw [herr]
    simp [createBoard]

/-- Witness for the amended C4 at the concrete failing world. -/
theorem publish_failure_propagates_witness :
    createBoardRequest [1] wOne stEmpty userAdmin
        { name := "B", description := none, groupId := none } "b1" 7
      = ((createBoard stEmpty userAdmin
          { name := "B", description := none, groupId := none } "b1" 7).1,
         Except.error wOne)
    ∧ (createBoardRequest [1] wOne stEmpty userAdmin
        { name := "B", description := none, groupId := none } "b1" 7).1.boards.length
        = stEmpty.boards.length + 1 :=
  publish_failure_propagates [1] wOne wOne stEmpty userAdmin
    { name := "B", description := none, groupId := none } "b1" 7 rfl

/-! ### C5: disconnect cleanup -/

theorem busOff_reg_count (reg : List (String × Nat)) (x : String × Nat) :
    ((reg.reverse.erase x).reverse).count x = reg.count x - 1 := by
  rw [List.count_reverse, List.count_erase_self, List.count_reverse]

theorem busOff_reg_subset {reg : List (String × Nat)} {x p : String × Nat}
    (hp : p ∈ (reg.reverse.erase x).reverse) : p ∈ reg := by
  rw [List.mem_reverse] at hp
  have := List.mem_of_mem_erase hp
  rwa [List.mem_reverse] at this

/-- C5.  The `req.on("close")` handler of a session registered once on
its tenant's channel: the heartbeat timer is cancelled, no frame is
written by the cleanup itself, the channel's subscriber count decreases
by exactly one, afterwards no publish on any tenant channel and no
heartbeat tick writes to that connection again, and running the cleanup
a second time changes nothing (the double `off`/`clearInterval` are
no-ops). -/
theorem disconnect_cleanup (w : World) (sid : Nat) (T : String)
    (hcount : w.reg.count (channelOf T, sid) = 1)
    (honly : ∀ p ∈ w.reg, p.2 = sid → p = (channelOf T, sid)) :
    (rtClose w sid T).hbActive sid = false
    ∧ (rtClose w sid T).writes = w.writes
    ∧ (listenersOf (rtClose w sid T).reg (channelOf T)).length + 1
        = (listenersOf w.reg (channelOf T)).length
    ∧ (∀ T2 ty d now, (emitBoardEvent (rtClose w sid T) T2 ty d now).writes sid
        = (rtClose w sid T).writes sid)
    ∧ (∀ T2 ty d now, (emitTaskEvent (rtClose w sid T) T2 ty d now).writes sid
        = (rtClose w sid T).writes sid)
    ∧ (∀ now, (hbTick (rtClose w sid T) sid now).writes sid
        = (rtClose w sid T).writes sid)
    ∧ rtClose (rtClose w sid T) sid T = rtClose w sid T := by
  have hbfalse : (rtClose w sid T).hbActive sid = false := by
    simp [rtClose, busOff]
  have hregclose : (rtClose w sid T).reg
      = (w.reg.reverse.erase (channelOf T, sid)).reverse := rfl
  have hnotmem : (channelOf T, sid) ∉ (rtClose w sid T).reg := by
    rw [hregclose]
    apply List.count_eq_zero.mp
    rw [busOff_reg_count, hcount]
  have hnone : ∀ p ∈ (rtClose w sid T).reg, p.2 ≠ sid := by
    intro p hp hps
    have hw : p ∈ w.reg := busOff_reg_subset (hregclose ▸ hp)
    have := honly p hw hps
    rw [this] at hp
    exact hnotmem hp
  have hchcount : ∀ ch, (listenersOf (rtClose w sid T).reg ch).count sid = 0 := by
    intro ch
    rw [count_listenersOf, List.count_eq_zero]
    intro hmem
    exact hnone (ch, sid) hmem rfl
  refine ⟨hbfalse, rfl, ?_, ?_, ?_, ?_, ?_⟩
  · have hmem : sid ∈ listenersOf w.reg (channelOf T) := by
      apply List.count_pos_iff.mp
      rw [count_listenersOf, hcount]
      exact Nat.one_pos
    rw [hregclose, listenersOf_reverse, listenersOf_erase, listenersOf_reverse]
    rw [List.length_reverse, List.length_erase_of_mem (List.mem_reverse.mpr hmem),
      List.length_reverse]
    exact Nat.succ_pred_eq_of_pos (List.length_pos_of_mem hmem)
  · intro T2 ty d now
    exact emit_writes_of_not_listener _ _ _ sid (hchcount (channelOf T2))
  · intro T2 ty d now
    exact emit_writes_of_not_listener _ _ _ sid (hchcount (channelOf T2))
  · intro now
    simp [hbTick, hbfalse]
  · apply World.ext
    · show (((rtClose w sid T).reg).reverse.erase (channelOf T, sid)).reverse
        = (rtClose w sid T).reg
      rw [List.erase_of_not_mem (fun hmem => hnotmem (List.mem_reverse.mp hmem)),
        List.reverse_reverse]
    · rfl
    · funext i
      by_cases hi : i = sid
      · subst hi
        simp [rtClose, busOff]
      · simp [rtClose, busOff, hi]

/-- A live session 7 on tenant t1: heartbeat running, registered once. -/
def wHb : World :=
  { reg := [(channelOf "t1", 7)], writes := fun _ => [],
    hbActive := fun i => i == 7 }

/-- Witness for C5 at session 7 on tenant t1. -/
theorem disconnect_cleanup_witness :
    (rtClose wHb 7 "t1").hbActive 7 = false
    ∧ (listenersOf (rtClose wHb 7 "t1").reg (channelOf "t1")).length + 1
        = (listenersOf wHb.reg (channelOf "t1")).length
    ∧ rtClose (rtClose wHb 7 "t1") 7 "t1" = rtClose wHb 7 "t1" := by
  have h := disconnect_cleanup wHb 7 "t1" (by decide)
    (by
      intro p hp _
      simpa [wHb] using hp)
  exact ⟨h.1, h.2.2.1, h.2.2.2.2.2.2⟩

/-! ### C6: event tenant comes from the authenticated session -/

theorem createBoard_tenant (st : Store) (user : TokenPayload)
    (body : CreateBoardBody) (newId : String) (now : Nat) :
    ∀ e ∈ (createBoard st user body newId now).2.1, e.tenantId = user.tenantId := by
  intro e he
  simp [createBoard, mkBoardEvent] at he
  rw [he]

theorem updateBoard_tenant (st : Store) (user : TokenPayload) (id : String)
    (body : UpdateBoardBody) (now : Nat) :
    ∀ e ∈ emittedOf (updateBoard st user id body now), e.tenantId = user.tenantId := by
  intro e he
  unfold updateBoard at he
  split at he
  · simp [emittedOf] at he
  · split at he
    · simp [emittedOf] at he
    · simp [emittedOf, mkBoardEvent] at he
      rw [he]

theorem deleteBoard_tenant (st : Store) (user : TokenPayload) (id : String)
    (now : Nat) :
    ∀ e ∈ emittedOf (deleteBoard st user id now), e.tenantId = user.tenantId := by
  intro e he
  unfold deleteBoard at he
  split at he
  · simp [emittedOf] at he
  · split at he
    · simp [emittedOf] at he
    · simp [emittedOf, mkBoardEvent] at he
      rw [he]

theorem createTaskPersist_tenant (st : Store) (user : TokenPayload)
    (boardId : String) (body : CreateTaskBody) (newId : String) (now : Nat) :
    ∀ e ∈ emittedOf (createTask.createTaskPersist st user boardId body newId now),
      e.tenantId = user.tenantId := by
  intro e he
  simp [createTask.createTaskPersist, emittedOf, mkTaskEvent] at he
  rw [he]

theorem createTaskRest_tenant (st : Store) (user : TokenPayload)
    (boardId : String) (body : CreateTaskBody) (newId : String) (now : Nat) :
    ∀ e ∈ emittedOf (createTask.createTaskRest st user boardId body newId now),
      e.tenantId = user.tenantId := by
  intro e he
  unfold createTask.createTaskRest at he
  split at he
  · split at he
    · simp [emittedOf] at he
    · exact createTaskPersist_tenant st user boardId body newId now e he
  · exact createTaskPersist_tenant st user boardId body newId now e he

theorem createTask_tenant (st : Store) (user : TokenPayload) (boardId : String)
    (body : CreateTaskBody) (newId : String) (now : Nat) :
    ∀ e ∈ emittedOf (createTask st user boardId body newId now),
      e.tenantId = user.tenantId := by
  intro e he
  unfold createTask at he
  split at he
  · simp [emittedOf] at he
  · split at he
    · split at he
      · simp [emittedOf] at he
      · exact createTaskRest_tenant st user boardId body newId now e he
    · exact createTaskRest_tenant st user boardId body newId now e he

theorem updateTaskRest_tenant (st : Store) (user : TokenPayload) (id : String)
    (body : UpdateTaskBody) (t0 : TaskRec) (now : Nat) :
    ∀ e ∈ emittedOf (updateTask.updateTaskRest st user id body t0 now),
      e.tenantId = user.tenantId := by
  intro e he
  unfold updateTask.updateTaskRest at he
  split at he
  · simp [emittedOf] at he
  · simp [emittedOf, mkTaskEvent] at he
    rw [he]

theorem updateTask_tenant (st : Store) (user : TokenPayload) (boardId id : String)
    (body : UpdateTaskBody) (now : Nat) :
    ∀ e ∈ emittedOf (updateTask st user boardId id body now),
      e.tenantId = user.tenantId := by
  intro e he
  unfold updateTask at he
  split at he
  · simp [emittedOf] at he
  · split at he
    · simp [emittedOf] at he
    · split at he
      · simp [emittedOf] at he
      · split at he
        · split at he
          · simp [emittedOf] at he
          · exact updateTaskRest_tenant st user id body _ now e he
        · exact updateTaskRest_tenant st user id body _ now e he

theorem deleteTask_tenant (st : Store) (user : TokenPayload) (boardId id : String)
    (now : Nat) :
    ∀ e ∈ emittedOf (deleteTask st user boardId id now),
      e.tenantId = user.tenantId := by
  intro e he
  unfold deleteTask at he
  split at he
  · simp [emittedOf] at he
  · split at he
    · simp [emittedOf] at he
    · split at he
      · simp [emittedOf] at he
      · simp [emittedOf, mkTaskEvent] at he
        rw [he]

/-- C6.  Every event published by any of the six mutating handlers
(board create/update/delete, task create/update/delete) carries the
tenantId of the authenticated caller's verified token payload
(`req.user`), whatever the request body and URL parameters contain; by
definition of `emitBoardEvent`/`emitTaskEvent` such an event is then
published on `tenant:${user.tenantId}` and on no other tenant's
channel. -/
theorem event_tenant_from_session (st : Store) (user : TokenPayload)
    (cb : CreateBoardBody) (ub : UpdateBoardBody) (ct : CreateTaskBody)
    (ut : UpdateTaskBody) (newId boardId taskId : String) (now : Nat) :
    (∀ e ∈ (createBoard st user cb newId now).2.1, e.tenantId = user.tenantId)
    ∧ (∀ e ∈ emittedOf (updateBoard st user boardId ub now), e.tenantId = user.tenantId)
    ∧ (∀ e ∈ emittedOf (deleteBoard st user boardId now), e.tenantId = user.tenantId)
    ∧ (∀ e ∈ emittedOf (createTask st user boardId ct newId now), e.tenantId = user.tenantId)
    ∧ (∀ e ∈ emittedOf (updateTask st user boardId taskId ut now), e.tenantId = user.tenantId)
    ∧ (∀ e ∈ emittedOf (deleteTask st user boardId taskId now), e.tenantId = user.tenantId) :=
  ⟨createBoard_tenant st user cb newId now,
   updateBoard_tenant st user boardId ub now,
   deleteBoard_tenant st user boardId now,
   createTask_tenant st user boardId ct newId now,
   updateTask_tenant st user boardId taskId ut now,
   deleteTask_tenant st user boardId taskId now⟩

/-- A board of tenant t1 owned by u1. -/
def bRec1 : BoardRec :=
  { id := "b1", name := "Board", description := none, tenantId := "t1",
    ownerId := "u1", groupId := none, createdAt := 0, updatedAt := 0 }

/-- A task on board b1 owned by u1. -/
def kRec1 : TaskRec :=
  { id := "k1", title := "Task", description := none, status := "TODO",
    boardId := "b1", ownerId := "u1", assigneeId := none, parentTaskId := none,
    createdAt := 0, updatedAt := 0 }

/-- A store of tenant t1 with one board, one task and one user. -/
def st1 : Store :=
  { boards := [bRec1], tasks := [kRec1], users := [{ id := "u1", tenantId := "t1" }] }

/-- Witness for C6: the event emitted by a successful `deleteTask` for
tenant t1 (client-supplied URL parameters `b1`, `k1`) carries the
caller's tenant. -/
theorem event_tenant_from_session_witness :
    (mkTaskEvent "t1" EventType.deleted (EventData.taskDeleted "k1" "b1" "t1") 7).tenantId
      = userAdmin.tenantId := by
  have h := event_tenant_from_session st1 userAdmin
    { name := "B", description := none, groupId := none }
    { name := none, description := none }
    { title := "T", description := none, status := none, assigneeId := none,
      parentTaskId := none }
    { title := none, description := none, status := none, assigneeId := none,
      parentTaskId := none }
    "n1" "b1" "k1" 7
  exact h.2.2.2.2.2 _ (by decide)

/-! ### C7: no query-parameter credential fallback (corrected) -/

/-- A member of tenant t1. -/
def payload1 : TokenPayload :=
  { userId := "u1", tenantId := "t1", roleId := "r1", roleName := "member",
    groupId := none }

/-- A verifier accepting exactly the token `tok1`. -/
def verify1 : String → Option TokenPayload :=
  fun t => if t = "tok1" then some payload1 else none

/-- Counterexample to C7: a streaming request that carries the valid
bearer token only in the `?token=` query parameter, with no
`Authorization` header, is rejected with 401 UNAUTHORIZED even though
the token verifies — auth.middleware.ts reads only the header and never
consults the query string. -/
theorem query_token_fallback_cex :
    verify1 "tok1" = some payload1
    ∧ authMiddleware verify1 { authorization := none, queryToken := some "tok1" }
        = Except.error AuthError.unauthorized :=
  ⟨rfl, rfl⟩

/-- C7 as amended.  Authentication of the streaming endpoint uses only
the `Authorization` header: the outcome is independent of any `?token=`
query parameter; with no header the request is rejected as UNAUTHORIZED
and the route leaves the world untouched (no subscription registered);
with a header of the form `Bearer <token>` whose token verifies, the
middleware attaches the verified payload; and on any middleware
rejection no subscription is registered. -/
theorem auth_header_only (verify : String → Option TokenPayload) (r : RtRequest)
    (tenants : String → Option Bool) (w : World) (sid now : Nat) :
    (authMiddleware verify r
       = authMiddleware verify { authorization := r.authorization, queryToken := none })
    ∧ (r.authorization = none →
        authMiddleware verify r = Except.error AuthError.unauthorized
        ∧ rtRoute verify tenants r w sid now = w)
    ∧ (∀ h p, r.authorization = some h → jsStartsWith h "Bearer " = true →
        verify (jsSlice h 7) = some p → authMiddleware verify r = Except.ok p)
    ∧ (∀ err, authMiddleware verify r = Except.error err →
        rtRoute verify tenants r w sid now = w) := by
  refine ⟨rfl, ?_, ?_, ?_⟩
  · intro hnone
    constructor
    · simp [authMiddleware, hnone]
    · simp [rtRoute, authMiddleware, hnone]
  · intro h p hh hsw hv
    simp [authMiddleware, hh, hsw, hv]
  · intro err herr
    simp only [rtRoute]
    rw [herr]

/-- Witness for the amended C7: the header request authenticates (the
query parameter being ignored), and the header-less request with a valid
query token registers nothing on the bus. -/
theorem auth_header_only_witness :
    authMiddleware verify1
        { authorization := some "Bearer tok1", queryToken := some "ignored" }
      = Except.ok payload1
    ∧ rtRoute verify1 (fun _ => some true)
        { authorization := none, queryToken := some "tok1" } wIso 9 0 = wIso := by
  have h1 := auth_header_only verify1
    { authorization := some "Bearer tok1", queryToken := some "ignored" }
    (fun _ => some true) wIso 9 0
  have h2 := auth_header_only verify1
    { authorization := none, queryToken := some "tok1" }
    (fun _ => some true) wIso 9 0
  exact ⟨h1.2.2.1 "Bearer tok1" payload1 rfl (by decide) rfl, (h2.2.1 rfl).2⟩

/-! ### C8: wire frame shape (corrected) -/

/-- Counterexample to C8: the synthetic `heartbeat` and `connected`
frames carry no `data` field at all — rt.controller.ts writes
`{ type: "heartbeat", timestamp }` and
`{ type: "connected", tenantId, timestamp }`. -/
theorem frame_shape_cex :
    List.lookup "data" (frameJson (Frame.heartbeat 3)) = none
    ∧ List.lookup "data" (frameJson (Frame.connected "t1" 3)) = none :=
  ⟨rfl, rfl⟩

/-- C8 as amended.  Every frame written to a streaming connection is a
JSON object with a `type` and a `timestamp` field, serialized one frame
per double-newline-terminated `data:` block; the `<entity>_<changeKind>`
mutation frames additionally carry the TenantEvent payload in a `data`
field, but the synthetic frames do not: `connected` carries `tenantId`
(and no `data`), and `heartbeat` carries only `type` and `timestamp`. -/
theorem frame_shape (f : Frame) :
    (List.lookup "type" (frameJson f)).isSome = true
    ∧ (List.lookup "timestamp" (frameJson f)).isSome = true
    ∧ (∀ ent ty d ts, f = Frame.event ent ty d ts →
        List.lookup "type" (frameJson f)
          = some (JField.lit (JLit.str (entityName ent ++ "_" ++ typeName ty)))
        ∧ List.lookup "data" (frameJson f) = some (JField.obj (dataJson d))
        ∧ List.lookup "timestamp" (frameJson f) = some (JField.lit (JLit.num ts)))
    ∧ (∀ tid ts, f = Frame.connected tid ts →
        List.lookup "tenantId" (frameJson f) = some (JField.lit (JLit.str tid))
        ∧ List.lookup "data" (frameJson f) = none)
    ∧ (∀ ts, f = Frame.heartbeat ts →
        List.lookup "data" (frameJson f) = none)
    ∧ sseBlock f = "data: " ++ renderObj (frameJson f) ++ "\x0a\x0a" := by
  cases f with
  | connected tid ts =>
      refine ⟨rfl, rfl, ?_, ?_, ?_, rfl⟩
      · intro ent ty d ts2 hcontra
        cases hcontra
      · intro tid2 ts2 heq
        cases heq
        exact ⟨rfl, rfl⟩
      · intro ts2 heq
        cases heq
  | heartbeat ts =>
      refine ⟨rfl, rfl, ?_, ?_, ?_, rfl⟩
      · intro ent ty d ts2 hcontra
        cases hcontra
      · intro tid2 ts2 hcontra
        cases hcontra
      · intro ts2 heq
        cases heq
        rfl
  | event ent ty d ts =>
      refine ⟨rfl, rfl, ?_, ?_, ?_, rfl⟩
      · intro ent2 ty2 d2 ts2 heq
        cases heq
        exact ⟨rfl, rfl, rfl⟩
      · intro tid2 ts2 hcontra
        cases hcontra
      · intro ts2 hcontra
        cases hcontra

/-- Witness for the amended C8 at a concrete mutation frame. -/
theorem frame_shape_witness :
    List.lookup "data"
        (frameJson (Frame.event Entity.board EventType.deleted
          (EventData.boardDeleted "b1" "t1") 9))
      = some (JField.obj (dataJson (EventData.boardDeleted "b1" "t1"))) :=
  ((frame_shape (Frame.event Entity.board EventType.deleted
      (EventData.boardDeleted "b1" "t1") 9)).2.2.1
    Entity.board EventType.deleted (EventData.boardDeleted "b1" "t1") 9 rfl).2.1

/-! ### C9: the connected frame precedes every bus-delivered frame -/

theorem stepWorld_writes_mono (w : World) (s : Step) (i : Nat) :
    ∃ l, (stepWorld w s).writes i = w.writes i ++ l := by
  cases s with
  | pubBoard t ty d now => exact ⟨_, emit_writes w _ _ i⟩
  | pubTask t ty d now => exact ⟨_, emit_writes w _ _ i⟩
  | hb sid now =>
      by_cases hhb : w.hbActive sid = true
      · by_cases hi : i = sid
        · subst hi
          exact ⟨[Frame.heartbeat now], by simp [stepWorld, hbTick, hhb]⟩
        · exact ⟨[], by simp [stepWorld, hbTick, hhb, hi]⟩
      · exact ⟨[], by simp [stepWorld, hbTick, hhb]⟩
  | connect sid t now =>
      by_cases hi : i = sid
      · subst hi
        exact ⟨[Frame.connected t now], by simp [stepWorld, rtOpen, busOn]⟩
      · exact ⟨[], by simp [stepWorld, rtOpen, busOn, hi]⟩
  | disconnect sid t => exact ⟨[], by simp [stepWorld, rtClose, busOff]⟩

theorem runSteps_writes_mono (ss : List Step) (w : World) (i : Nat) :
    ∃ l, (runSteps w ss).writes i = w.writes i ++ l := by
  induction ss generalizing w with
  | nil => exact ⟨[], by simp [runSteps]⟩
  | cons s rest ih =>
      obtain ⟨l1, h1⟩ := stepWorld_writes_mono w s i
      obtain ⟨l2, h2⟩ := ih (stepWorld w s)
      refine ⟨l1 ++ l2, ?_⟩
      have hrun : runSteps w (s :: rest) = runSteps (stepWorld w s) rest := rfl
      rw [hrun, h2, h1, List.append_assoc]

/-- C9.  On a fresh connection, `rtUpdates` writes the `connected`
acknowledgement before registering the session's callback on the tenant
channel, so after any further trace of publishes, heartbeats, connects
and disconnects, the first frame on that connection is still the
`connected` frame — no bus-delivered mutation frame precedes it. -/
theorem connected_frame_first (w : World) (sid : Nat) (T : String) (now : Nat)
    (ss : List Step) (hfresh : w.writes sid = []) :
    ((runSteps (rtOpen w sid T now) ss).writes sid).head?
      = some (Frame.connected T now) := by
  have hopen : (rtOpen w sid T now).writes sid = [Frame.connected T now] := by
    simp [rtOpen, busOn, hfresh]
  obtain ⟨l, hl⟩ := runSteps_writes_mono ss (rtOpen w sid T now) sid
  rw [hl, hopen]
  rfl

/-- The world before any connection. -/
def wEmpty : World :=
  { reg := [], writes := fun _ => [], hbActive := fun _ => false }

/-- Witness for C9: session 1 connects to t1, then a board event is
published on t1; the first frame on the connection is `connected`. -/
theorem connected_frame_first_witness :
    ((runSteps (rtOpen wEmpty 1 "t1" 0)
        [Step.pubBoard "t1" EventType.deleted (EventData.boardDeleted "b1" "t1") 2]).writes 1).head?
      = some (Frame.connected "t1" 0) :=
  connected_frame_first wEmpty 1 "t1" 0
    [Step.pubBoard "t1" EventType.deleted (EventData.boardDeleted "b1" "t1") 2] rfl

/-! ### C10: a board deletion emits exactly one event -/

/-- C10.  A successful `deleteBoard` publishes exactly one event: a
board `deleted` event whose payload is the `{ id, tenantId }` deletion
marker; in particular no task event is emitted for the tasks removed by
the cascade. -/
theorem board_cascade_single_event (st : Store) (user : TokenPayload)
    (id : String) (now : Nat) (st2 : Store) (evs : List TenantEvent) (msg : String)
    (h : deleteBoard st user id now = Except.ok (st2, evs, msg)) :
    evs = [mkBoardEvent user.tenantId EventType.deleted
            (EventData.boardDeleted id user.tenantId) now]
    ∧ ∀ e ∈ evs, e.entity = Entity.board := by
  unfold deleteBoard at h
  split at h
  · exact absurd h (by simp)
  · split at h
    · exact absurd h (by simp)
    · simp only [Except.ok.injEq, Prod.mk.injEq] at h
      obtain ⟨-, hev, -⟩ := h
      subst hev
      refine ⟨rfl, ?_⟩
      intro e he
      have he2 : e = mkBoardEvent user.tenantId EventType.deleted
          (EventData.boardDeleted id user.tenantId) now := by simpa using he
      rw [he2]
      rfl

/-- Witness for C10: deleting board b1 of tenant t1 emits exactly the
board `deleted` event with the `{ id, tenantId }` marker. -/
theorem board_cascade_single_event_witness :
    [mkBoardEvent "t1" EventType.deleted (EventData.boardDeleted "b1" "t1") 7]
      = [mkBoardEvent userAdmin.tenantId EventType.deleted
          (EventData.boardDeleted "b1" userAdmin.tenantId) 7]
    ∧ ∀ e ∈ [mkBoardEvent "t1" EventType.deleted (EventData.boardDeleted "b1" "t1") 7],
        e.entity = Entity.board :=
  board_cascade_single_event st1 userAdmin "b1" 7 (cascadeDeleteBoard st1 "b1")
    [mkBoardEvent "t1" EventType.deleted (EventData.boardDeleted "b1" "t1") 7]
    "Board deleted successfully" rfl

end TaskTS
